import Mathlib

/-!
Verification of the AI pitch-deck generator's core subsystems:
the content orchestrator (backend/src/ai/content_generator.py),
the financial projection engine (backend/src/ai/financial_modeler.py)
and the market-sizing calculator (backend/src/ai/market_researcher.py).

Modelling conventions:
* Python floats are embedded as exact rationals.
* Python round(x, n) (banker's rounding, half to even) is modelled by
  rndHalfEven below, applied after scaling by 10^n.
* The unseeded gaussian jitter drawn once per projected month is modelled
  as an explicit month-indexed stream of rational draws.
* Wall-clock timestamps (datetime.utcnow().isoformat()) are modelled as an
  explicit clock argument of type String.
* Python dict lookups with defaults (startup_data.get(key, default)) are
  modelled with Option fields and Option.getD.
* float('inf') sentinels are modelled as the none case of Option.
* The mutual recursion create_financial_model -> _create_scenarios ->
  create_financial_model has no base case in the source; it is embedded
  with an explicit fuel parameter that models Python's recursion limit
  (exhaustion raises RecursionError, caught by the engine's top-level
  try/except, which returns the fallback record).
-/

/-- Round a rational to the nearest integer, ties to even: the behaviour of
Python's built-in round on exact values. -/
def rndHalfEven (q : ℚ) : ℤ :=
  if q - ⌊q⌋ < 1/2 then ⌊q⌋
  else if 1/2 < q - ⌊q⌋ then ⌊q⌋ + 1
  else if ⌊q⌋ % 2 = 0 then ⌊q⌋ else ⌊q⌋ + 1

/-- Python round(x, 2). -/
def round2 (x : ℚ) : ℚ := (rndHalfEven (x * 100) : ℚ) / 100

/-- Python round(x, 1). -/
def round1 (x : ℚ) : ℚ := (rndHalfEven (x * 10) : ℚ) / 10

/-- A rational that is an exact multiple of one cent. All values produced by
round2 have this shape. -/
def IsCenti (x : ℚ) : Prop := ∃ k : ℤ, x = (k : ℚ) / 100

/-!
Content orchestrator (backend/src/ai/content_generator.py).

The per-slide generators and the external LLM call (_call_openai) are
modelled as an oracle: a function from the startup profile and slide type
to either a structured content value or an error (provider timeout,
authentication failure, malformed response, ...). The startup profile
type is a parameter: the orchestrator only passes it through to the
oracle and to the fallback constructor.
-/

/-- SlideType enum (backend/src/models/slide.py). -/
inductive SlideType where
  | title | problem | solution | market_opportunity | business_model
  | traction | competition | team | financials | funding_ask
  | roadmap | contact | custom
deriving DecidableEq, Repr

/-- SlideType.value: the string value of each enum member. -/
def SlideType.value : SlideType → String
  | .title => "title"
  | .problem => "problem"
  | .solution => "solution"
  | .market_opportunity => "market_opportunity"
  | .business_model => "business_model"
  | .traction => "traction"
  | .competition => "competition"
  | .team => "team"
  | .financials => "financials"
  | .funding_ask => "funding_ask"
  | .roadmap => "roadmap"
  | .contact => "contact"
  | .custom => "custom"

/-- JSON-like content values returned by the slide builders. -/
inductive JVal where
  | str : String → JVal
  | num : ℚ → JVal
  | arr : List JVal → JVal
  | obj : List (String × JVal) → JVal

/-- A slide-content record as assembled by generate_slide_content /
_create_fallback_content: slide_type, content, generated_at, model_used. -/
structure SlideRec where
  slide_type : String
  content : JVal
  generated_at : String
  model_used : String

/-- model_preferences left-bracket "content" right-bracket in
ContentGenerator.__init__. -/
def model_preferences_content : String := "gpt-4"

/-- Python str.title() on ASCII text: uppercase a letter that does not
follow a letter, lowercase one that does. -/
def titleizeChars : List Char → Bool → List Char
  | [], _ => []
  | c :: cs, prevAlpha =>
    (if prevAlpha then c.toLower else c.toUpper) :: titleizeChars cs c.isAlpha

/-- Python str.title(). -/
def pyTitle (s : String) : String := ⟨titleizeChars s.data false⟩

/-- ContentGenerator._create_fallback_content: deterministic placeholder
content built from the slide type, the current UTC time and (unused)
startup profile; model_used is "fallback". -/
def create_fallback_content {α : Type} (slide_type : SlideType) (_startup : α)
    (now : String) : SlideRec :=
  { slide_type := slide_type.value
    content := .obj
      [ ("title", .str (pyTitle (slide_type.value.replace "_" " ")))
      , ("content", .str ("Content for " ++ slide_type.value ++ " slide"))
      , ("bullet_points", .arr [.str "Sample bullet point 1", .str "Sample bullet point 2"])
      , ("layout", .str "bullet_points") ]
    generated_at := now
    model_used := "fallback" }

/-- ContentGenerator.generate_slide_content: runs the slide-type-specific
builder and the LLM call (the oracle) and wraps the produced content in a
record tagged with the slide type, the time, and the model name; any
exception propagates to the caller. -/
def generate_slide_content {α : Type} (oracle : α → SlideType → Except String JVal)
    (now : String) (startup : α) (slide_type : SlideType) : Except String SlideRec :=
  (oracle startup slide_type).map fun content =>
    { slide_type := slide_type.value
      content := content
      generated_at := now
      model_used := model_preferences_content }

/-- The default 10-slide sequence substituted when the requested list is
falsy (None or empty). -/
def default_slide_types : List SlideType :=
  [ .title, .problem, .solution, .market_opportunity, .business_model
  , .traction, .competition, .team, .financials, .funding_ask ]

/-- ContentGenerator.generate_pitch_deck_content: fans out one job per
requested slide type (asyncio.gather preserves positional order), then
merges positionally, substituting fallback content wherever the job
raised. An empty (or absent) request list is replaced by the default
10-type sequence by the falsy check on slide_types. -/
def generate_pitch_deck_content {α : Type}
    (oracle : α → SlideType → Except String JVal) (now : String) (startup : α)
    (slide_types : List SlideType) : List SlideRec :=
  let types := if slide_types.isEmpty then default_slide_types else slide_types
  types.map fun st =>
    match generate_slide_content oracle now startup st with
    | .ok r => r
    | .error _ => create_fallback_content st startup now

/-- A concrete oracle whose jobs all succeed. -/
def oracleAllOk : Unit → SlideType → Except String JVal :=
  fun _ _ => .ok (.str "generated")

/-- A concrete oracle whose job fails exactly on the problem slide. -/
def oracleFailsProblem : Unit → SlideType → Except String JVal := fun _ st =>
  match st with
  | .problem => .error "provider timeout"
  | _ => .ok (.str "generated")

/-!
Financial projection engine (backend/src/ai/financial_modeler.py).

startup_data is a Python dict; the fields the engine reads are modelled as
Option-valued record fields (absent key = none). np.random.normal(0, 0.05)
is modelled as a month-indexed stream jit of rational draws, so that a
deterministic (seeded) random source corresponds to a fixed stream shared
by every projection run.
-/

/-- The startup_data fields read by FinancialModeler. -/
structure StartupData where
  name : Option String
  current_revenue : Option ℚ
  customer_count : Option ℤ
  team_size : Option ℚ
  funding_stage : Option String

/-- Stage-dependent monthly revenue growth rate (growth_rates dict in
_project_revenue, default 0.20). -/
def growth_rates (funding_stage : String) : ℚ :=
  if funding_stage = "seed" then 3/20
  else if funding_stage = "series_a" then 1/4
  else if funding_stage = "series_b" then 3/10
  else if funding_stage = "series_c" then 1/5
  else 1/5

/-- Stage-dependent monthly team growth rate (team_growth_rates dict in
_project_costs, default 0.10). -/
def team_growth_rates (funding_stage : String) : ℚ :=
  if funding_stage = "seed" then 1/10
  else if funding_stage = "series_a" then 3/20
  else if funding_stage = "series_b" then 1/5
  else if funding_stage = "series_c" then 3/20
  else 1/10

/-- One element of revenue_data in _project_revenue. -/
structure RevEntry where
  month : ℕ
  revenue : ℚ
  growth_rate : ℚ
  cumulative_revenue : ℚ

/-- The loop body of _project_revenue: monthly_revenue is multiplied by
max(0.8, 1 + growth_rate + jitter) each month; the recorded revenue is
round(monthly_revenue, 2); cumulative_revenue is round(sum of previously
recorded revenues + updated monthly_revenue, 2). recSum carries the sum of
the previously recorded (rounded) revenues. -/
def revRows (g : ℚ) (jit : ℕ → ℚ) : ℕ → ℕ → ℚ → ℚ → List RevEntry
  | _, 0, _, _ => []
  | month, k+1, monthly_revenue, recSum =>
    let growth_multiplier := 1 + g + jit month
    let mr := monthly_revenue * max (4/5) growth_multiplier
    { month := month, revenue := round2 mr, growth_rate := g
      cumulative_revenue := round2 (recSum + mr) }
      :: revRows g jit (month+1) k mr (recSum + round2 mr)

/-- The dict returned by _project_revenue. -/
structure RevProj where
  monthly_revenue : List RevEntry
  annual_revenue : List ℚ
  total_revenue_36_months : ℚ
  average_monthly_growth : ℚ

/-- FinancialModeler._project_revenue: 36 months of compounding revenue
with a stage-selected growth rate and per-month jitter; annual rollups are
the three 12-month bucket sums. customer_count is accepted but unused, as
in the source. -/
def project_revenue (current_revenue : ℚ) (_customer_count : ℤ)
    (funding_stage : String) (jit : ℕ → ℚ) : RevProj :=
  let growth_rate := growth_rates funding_stage
  let rows := revRows growth_rate jit 1 36 current_revenue 0
  { monthly_revenue := rows
    annual_revenue :=
      [ ((rows.take 12).map (·.revenue)).sum
      , (((rows.drop 12).take 12).map (·.revenue)).sum
      , (((rows.drop 24).take 12).map (·.revenue)).sum ]
    total_revenue_36_months := (rows.map (·.revenue)).sum
    average_monthly_growth := growth_rate }

/-- One element of cost_data in _project_costs. -/
structure CostEntry where
  month : ℕ
  team_size : ℚ
  personnel_costs : ℚ
  overhead_costs : ℚ
  marketing_costs : ℚ
  other_costs : ℚ
  total_costs : ℚ

/-- The loop body of _project_costs: the team grows by the stage rate and
is capped at 100; personnel = team x 8000, overhead = team x 2000,
marketing = 30 percent and other = 20 percent of personnel. -/
def costRows (tg : ℚ) : ℕ → ℕ → ℚ → List CostEntry
  | _, 0, _ => []
  | month, k+1, current_team_size =>
    let grown := current_team_size * (1 + tg)
    let team := min grown 100
    let personnel_costs := team * 8000
    let overhead_costs := team * 2000
    let marketing_costs := personnel_costs * (3/10)
    let other_costs := personnel_costs * (1/5)
    let total_costs := personnel_costs + overhead_costs + marketing_costs + other_costs
    { month := month, team_size := round1 team
      personnel_costs := round2 personnel_costs
      overhead_costs := round2 overhead_costs
      marketing_costs := round2 marketing_costs
      other_costs := round2 other_costs
      total_costs := round2 total_costs }
      :: costRows tg (month+1) k team

/-- The dict returned by _project_costs. -/
structure CostProj where
  monthly_costs : List CostEntry
  annual_costs : List ℚ
  total_costs_36_months : ℚ
  average_monthly_burn : ℚ

/-- FinancialModeler._project_costs over 36 months. -/
def project_costs (team_size : ℚ) (funding_stage : String) : CostProj :=
  let team_growth := team_growth_rates funding_stage
  let rows := costRows team_growth 1 36 team_size
  { monthly_costs := rows
    annual_costs :=
      [ ((rows.take 12).map (·.total_costs)).sum
      , (((rows.drop 12).take 12).map (·.total_costs)).sum
      , (((rows.drop 24).take 12).map (·.total_costs)).sum ]
    total_costs_36_months := (rows.map (·.total_costs)).sum
    average_monthly_burn := ((rows.map (·.total_costs)).sum) / (rows.length : ℚ) }

/-- One element of cash_flow_data in _project_cash_flow. float('inf')
runway (zero costs) is the none case. -/
structure CashEntry where
  month : ℕ
  revenue : ℚ
  costs : ℚ
  net_cash_flow : ℚ
  cumulative_cash : ℚ
  runway_months : Option ℚ

/-- The loop of _project_cash_flow: walks the monthly revenue and cost
records in lockstep (the source indexes both lists by month-1), carrying
current_cash; returns the recorded rows together with the final
current_cash. -/
def cashLoop : ℕ → ℚ → List RevEntry → List CostEntry → List CashEntry × ℚ
  | month, cash, re :: res, ce :: ces =>
    let revenue := re.revenue
    let costs := ce.total_costs
    let net_cash_flow := revenue - costs
    let cash1 := cash + net_cash_flow
    let rest := cashLoop (month+1) cash1 res ces
    ({ month := month, revenue := revenue, costs := costs
       net_cash_flow := round2 net_cash_flow
       cumulative_cash := round2 cash1
       runway_months := if 0 < costs then some (round1 (cash1 / costs)) else none }
       :: rest.1, rest.2)
  | _, cash, _, _ => ([], cash)

/-- The dict returned by _project_cash_flow. -/
structure CashProj where
  monthly_cash_flow : List CashEntry
  starting_cash : ℚ
  ending_cash : ℚ
  total_net_cash_flow : ℚ
  average_monthly_cash_flow : ℚ

/-- FinancialModeler._project_cash_flow: starting cash 1,000,000; monthly
net cash flow is recorded revenue minus recorded total cost. -/
def project_cash_flow (rp : RevProj) (cp : CostProj) : CashProj :=
  let starting_cash : ℚ := 1000000
  let result := cashLoop 1 starting_cash rp.monthly_revenue cp.monthly_costs
  { monthly_cash_flow := result.1
    starting_cash := starting_cash
    ending_cash := result.2
    total_net_cash_flow := result.2 - starting_cash
    average_monthly_cash_flow :=
      ((result.1.map (·.net_cash_flow)).sum) / (result.1.length : ℚ) }

/-- The dict returned by _calculate_unit_economics. The unbounded payback
sentinel float('inf') is the none case. -/
structure UnitEcon where
  average_revenue_per_user : ℚ
  customer_acquisition_cost : ℚ
  customer_lifetime_value : ℚ
  churn_rate : ℚ
  ltv_cac_ratio : ℚ
  payback_period_months : Option ℚ
  gross_margin : ℚ
  contribution_margin : ℚ

/-- The ARPU computed by _calculate_unit_economics before rounding:
customer_count defaults to 1 when absent (dict get with default 1), and
ARPU is guarded to 0 unless customer_count > 0. -/
def unit_arpu (d : StartupData) : ℚ :=
  if 0 < d.customer_count.getD 1
  then d.current_revenue.getD 0 / ((d.customer_count.getD 1 : ℤ) : ℚ)
  else 0

/-- FinancialModeler._calculate_unit_economics with the default
assumptions CAC=100, LTV=500, churn=0.05, gross margin=0.70. -/
def calculate_unit_economics (d : StartupData) : UnitEcon :=
  let average_revenue_per_user := unit_arpu d
  let customer_acquisition_cost : ℚ := 100
  let customer_lifetime_value : ℚ := 500
  let churn_rate : ℚ := 1/20
  let ltv_cac_ratio :=
    if 0 < customer_acquisition_cost
    then customer_lifetime_value / customer_acquisition_cost else 0
  let payback_period : Option ℚ :=
    if 0 < average_revenue_per_user
    then some (customer_acquisition_cost / average_revenue_per_user) else none
  { average_revenue_per_user := round2 average_revenue_per_user
    customer_acquisition_cost := customer_acquisition_cost
    customer_lifetime_value := customer_lifetime_value
    churn_rate := churn_rate
    ltv_cac_ratio := round2 ltv_cac_ratio
    payback_period_months := payback_period.map round1
    gross_margin := 7/10
    contribution_margin :=
      round2 (average_revenue_per_user * (7/10) - customer_acquisition_cost) }

/-- The dict returned by _calculate_valuation. -/
structure ValuationModel where
  projected_annual_revenue : ℚ
  valuation_multiple : ℚ
  estimated_valuation : ℚ
  valuation_date : String
  methodology : String

/-- Stage-dependent revenue multiple (valuation_multiples dict, default 8). -/
def valuation_multiples (funding_stage : String) : ℚ :=
  if funding_stage = "seed" then 5
  else if funding_stage = "series_a" then 8
  else if funding_stage = "series_b" then 10
  else if funding_stage = "series_c" then 12
  else 8

/-- FinancialModeler._calculate_valuation: year-3 annual revenue (or last
month times 12 when fewer than 3 annual buckets) times the stage multiple. -/
def calculate_valuation (rp : RevProj) (funding_stage : String) (now : String) : ValuationModel :=
  let annual_revenue :=
    if 2 < rp.annual_revenue.length then rp.annual_revenue.getD 2 0
    else ((rp.monthly_revenue.getLast?.map (·.revenue)).getD 0) * 12
  let multiple := valuation_multiples funding_stage
  { projected_annual_revenue := round2 annual_revenue
    valuation_multiple := multiple
    estimated_valuation := round2 (annual_revenue * multiple)
    valuation_date := now
    methodology := "Revenue multiple" }

/-- The dict returned by _calculate_key_metrics. -/
structure KeyMetrics where
  total_revenue_36_months : ℚ
  total_costs_36_months : ℚ
  net_profit_36_months : ℚ
  average_monthly_revenue : ℚ
  average_monthly_costs : ℚ
  profit_margin : ℚ
  revenue_growth_rate : ℚ
  burn_rate : ℚ

/-- FinancialModeler._calculate_key_metrics. -/
def calculate_key_metrics (rp : RevProj) (cp : CostProj) : KeyMetrics :=
  let total_revenue := rp.total_revenue_36_months
  let total_costs := cp.total_costs_36_months
  let average_monthly_revenue := total_revenue / 36
  let average_monthly_costs := total_costs / 36
  { total_revenue_36_months := round2 total_revenue
    total_costs_36_months := round2 total_costs
    net_profit_36_months := round2 (total_revenue - total_costs)
    average_monthly_revenue := round2 average_monthly_revenue
    average_monthly_costs := round2 average_monthly_costs
    profit_margin :=
      if 0 < total_revenue
      then round2 ((total_revenue - total_costs) / total_revenue * 100) else 0
    revenue_growth_rate := rp.average_monthly_growth
    burn_rate := round2 average_monthly_costs }

/-- The non-scenario part of the dict returned by create_financial_model. -/
structure ModelCore where
  startup_name : Option String
  created_at : String
  projection_period : String
  revenue_projections : RevProj
  cost_projections : CostProj
  cash_flow_projections : CashProj
  unit_economics : UnitEcon
  valuation_model : ValuationModel
  key_metrics : KeyMetrics

/-- The dict returned by _create_fallback_financial_model: the documented
all-zero record tagged source = "fallback_data" (its scenarios dict is
empty). -/
structure FallbackModel where
  startup_name : String
  created_at : String
  projection_period : String
  total_revenue_36_months : ℚ
  total_costs_36_months : ℚ
  total_net_cash_flow : ℚ
  ltv_cac_ratio : ℚ
  estimated_valuation : ℚ
  profit_margin : ℚ
  source : String

/-- FinancialModeler._create_fallback_financial_model. -/
def create_fallback_financial_model (now : String) (d : StartupData) : FallbackModel :=
  { startup_name := d.name.getD "Unknown"
    created_at := now
    projection_period := "36 months"
    total_revenue_36_months := 0
    total_costs_36_months := 0
    total_net_cash_flow := 0
    ltv_cac_ratio := 0
    estimated_valuation := 0
    profit_margin := 0
    source := "fallback_data" }

/-- A financial model: either the full record (whose scenarios dict holds
the base_case, optimistic and pessimistic sub-models built by
_create_scenarios) or the fallback record (whose scenarios dict is empty). -/
inductive FinModel where
  | model : ModelCore → FinModel → FinModel → FinModel → FinModel
  | fallback : FallbackModel → FinModel

/-- The optimistic scenario input: startup_data.copy() with
current_revenue scaled by 1.2 (_create_scenarios). -/
def optimistic_data (d : StartupData) : StartupData :=
  { d with current_revenue := some (d.current_revenue.getD 0 * (6/5)) }

/-- The pessimistic scenario input: startup_data.copy() with
current_revenue scaled by 0.8 (_create_scenarios). -/
def pessimistic_data (d : StartupData) : StartupData :=
  { d with current_revenue := some (d.current_revenue.getD 0 * (4/5)) }

/-- FinancialModeler.create_financial_model combined with
_create_scenarios. The source has no base case: create_financial_model
builds its scenarios dict by calling itself (through _create_scenarios) on
the base, optimistic and pessimistic inputs, unconditionally. fuel models
Python's recursion limit: at depth exhaustion the interpreter raises
RecursionError, which the function's own try/except converts into the
fallback record. -/
def create_financial_model (jit : ℕ → ℚ) (now : String) :
    ℕ → StartupData → FinModel
  | 0, d => .fallback (create_fallback_financial_model now d)
  | fuel+1, d =>
    let current_revenue := d.current_revenue.getD 0
    let customer_count := d.customer_count.getD 0
    let team_size := d.team_size.getD 1
    let funding_stage := d.funding_stage.getD "seed"
    let rp := project_revenue current_revenue customer_count funding_stage jit
    let cp := project_costs team_size funding_stage
    .model
      { startup_name := d.name
        created_at := now
        projection_period := "36 months"
        revenue_projections := rp
        cost_projections := cp
        cash_flow_projections := project_cash_flow rp cp
        unit_economics := calculate_unit_economics d
        valuation_model := calculate_valuation rp funding_stage now
        key_metrics := calculate_key_metrics rp cp }
      (create_financial_model jit now fuel d)
      (create_financial_model jit now fuel (optimistic_data d))
      (create_financial_model jit now fuel (pessimistic_data d))

/-- The try block of create_financial_model viewed from its caller: with
fuel left it produces the full model, with no fuel left the interpreter
raises RecursionError inside the block. -/
def create_financial_model_body (jit : ℕ → ℚ) (now : String) (fuel : ℕ)
    (d : StartupData) : Except String FinModel :=
  match fuel with
  | 0 => .error "RecursionError: maximum recursion depth exceeded"
  | f+1 => .ok (create_financial_model jit now (f+1) d)

/-- True when no fallback record occurs anywhere in the model, i.e. when
the scenario recursion ran to completion without hitting the recursion
limit. -/
def fallback_free : FinModel → Bool
  | .model _ base opt pess => fallback_free base && fallback_free opt && fallback_free pess
  | .fallback _ => false

/-- The base_case entry of the scenarios dict. -/
def base_case_scenario : FinModel → Option FinModel
  | .model _ base _ _ => some base
  | .fallback _ => none

/-- The optimistic entry of the scenarios dict. -/
def optimistic_scenario : FinModel → Option FinModel
  | .model _ _ opt _ => some opt
  | .fallback _ => none

/-- The pessimistic entry of the scenarios dict. -/
def pessimistic_scenario : FinModel → Option FinModel
  | .model _ _ _ pess => some pess
  | .fallback _ => none

/-- The revenue_projections field of a (non-fallback) model. -/
def revenue_projections_of : FinModel → Option RevProj
  | .model c _ _ _ => some c.revenue_projections
  | .fallback _ => none

/-- A profile whose customer_count is present and negative. -/
def negCountProfile : StartupData :=
  { name := none, current_revenue := some 100, customer_count := some (-1)
    team_size := none, funding_stage := none }

/-!
Market-sizing calculator (backend/src/ai/market_researcher.py).
-/

/-- The result dict of MarketResearcher.calculate_tam_sam_som. -/
structure TamSamSom where
  tam : ℚ
  sam : ℚ
  som : ℚ
  tam_percentage : ℚ
  sam_percentage : ℚ
  som_percentage : ℚ
  currency : String
  calculation_date : String

/-- MarketResearcher._get_market_size: the wired market-size source always
reports total_market_size = 1,000,000,000. -/
def get_market_size_total : ℚ := 1000000000

/-- MarketResearcher.calculate_tam_sam_som, parameterized by the
total_market_size value looked up from the market-size source (a dict get
with default 0): tam = that value, sam = tam x 0.15, som = sam x 0.03,
computed unconditionally — the source contains no input validation. -/
def calculate_tam_sam_som (total_market_size : Option ℚ) (now : String) : TamSamSom :=
  let tam := total_market_size.getD 0
  let sam_percentage : ℚ := 15/100
  let sam := tam * sam_percentage
  let som_percentage : ℚ := 3/100
  let som := sam * som_percentage
  { tam := tam
    sam := sam
    som := som
    tam_percentage := 100
    sam_percentage := sam_percentage * 100
    som_percentage := som_percentage * 100
    currency := "USD"
    calculation_date := now }

theorem rndHalfEven_intCast (k : ℤ) : rndHalfEven (k : ℚ) = k := by
  unfold rndHalfEven
  rw [Int.floor_intCast]
  norm_num

theorem rndHalfEven_bounds (q : ℚ) :
    (rndHalfEven q : ℚ) ≤ q + 1/2 ∧ q - 1/2 ≤ (rndHalfEven q : ℚ) := by
  unfold rndHalfEven
  have h1 : (⌊q⌋ : ℚ) ≤ q := Int.floor_le q
  have h2 : q < ⌊q⌋ + 1 := Int.lt_floor_add_one q
  split_ifs with ha hb hc <;> constructor <;> push_cast <;> linarith

theorem round2_le (x : ℚ) : round2 x ≤ x + 1/200 := by
  have h := (rndHalfEven_bounds (x * 100)).1
  unfold round2
  linarith

theorem le_round2 (x : ℚ) : x - 1/200 ≤ round2 x := by
  have h := (rndHalfEven_bounds (x * 100)).2
  unfold round2
  linarith

theorem round2_isCenti (x : ℚ) : IsCenti (round2 x) :=
  ⟨rndHalfEven (x * 100), rfl⟩

theorem IsCenti.add {x y : ℚ} (hx : IsCenti x) (hy : IsCenti y) :
    IsCenti (x + y) := by
  obtain ⟨k, rfl⟩ := hx
  obtain ⟨j, rfl⟩ := hy
  exact ⟨k + j, by push_cast; ring⟩

theorem IsCenti.sub {x y : ℚ} (hx : IsCenti x) (hy : IsCenti y) :
    IsCenti (x - y) := by
  obtain ⟨k, rfl⟩ := hx
  obtain ⟨j, rfl⟩ := hy
  exact ⟨k - j, by push_cast; ring⟩

theorem round2_eq_self {x : ℚ} (h : IsCenti x) : round2 x = x := by
  obtain ⟨k, rfl⟩ := h
  unfold round2
  have hk : (k : ℚ) / 100 * 100 = (k : ℚ) :=
    div_mul_cancel₀ _ (by norm_num)
  rw [hk, rndHalfEven_intCast]

theorem isCenti_million : IsCenti (1000000 : ℚ) :=
  ⟨100000000, by norm_num⟩

/-- Growth floor survives rounding only up to a cent of slack: if the
pre-rounding value grows by a factor of at least 4/5, the rounded values
satisfy the floor with a 1/100 tolerance. -/
theorem round2_growth (x mult : ℚ) (hx : 0 ≤ x) (hm : 4/5 ≤ mult) :
    4/5 * round2 x - 1/100 ≤ round2 (x * mult) := by
  have h1 := round2_le x
  have h2 := le_round2 (x * mult)
  have h3 : x * (4/5) ≤ x * mult := mul_le_mul_of_nonneg_left hm hx
  linarith

/-- Whatever the oracle does, the record produced at a position carries the
requested slide type. -/
theorem slide_type_of_resolve {α : Type} (oracle : α → SlideType → Except String JVal)
    (now : String) (startup : α) (st : SlideType) :
    (match generate_slide_content oracle now startup st with
      | .ok r => r
      | .error _ => create_fallback_content st startup now).slide_type = st.value := by
  cases h : oracle startup st <;>
    simp [generate_slide_content, create_fallback_content, h, Except.map]

/-- C1 (amended): for every nonempty requested list of N slide types the
orchestrator returns exactly N records whose slide_type sequence equals the
requested sequence in order; an empty (falsy) list is replaced by the
default 10-type sequence, yielding 10 records in the default order. -/
theorem generate_pitch_deck_content_order {α : Type}
    (oracle : α → SlideType → Except String JVal) (now : String) (startup : α)
    (types : List SlideType) (h : types ≠ []) :
    ((generate_pitch_deck_content oracle now startup types).length = types.length ∧
      (generate_pitch_deck_content oracle now startup types).map (·.slide_type)
        = types.map SlideType.value) ∧
    ((generate_pitch_deck_content oracle now startup []).length = 10 ∧
      (generate_pitch_deck_content oracle now startup []).map (·.slide_type)
        = default_slide_types.map SlideType.value) := by
  have key : ∀ ts : List SlideType,
      ((ts.map fun st =>
        match generate_slide_content oracle now startup st with
        | .ok r => r
        | .error _ => create_fallback_content st startup now).map (·.slide_type))
        = ts.map SlideType.value := fun ts => by
    rw [List.map_map]
    exact List.map_congr_left fun st _ => slide_type_of_resolve oracle now startup st
  have hne : types.isEmpty = false := by
    cases types with
    | nil => exact absurd rfl h
    | cons a as => rfl
  refine ⟨⟨?_, ?_⟩, ?_, ?_⟩
  · simp [generate_pitch_deck_content, hne]
  · simpa [generate_pitch_deck_content, hne] using key types
  · simp [generate_pitch_deck_content, default_slide_types]
  · simpa [generate_pitch_deck_content] using key default_slide_types

/-- C1 witness: a concrete two-element request yields two records in the
requested order. -/
theorem generate_pitch_deck_content_order_witness :
    ([SlideType.financials, SlideType.title] ≠ ([] : List SlideType)) ∧
    ((generate_pitch_deck_content oracleAllOk "2024-01-01T00:00:00" ()
        [SlideType.financials, SlideType.title]).length = 2 ∧
      (generate_pitch_deck_content oracleAllOk "2024-01-01T00:00:00" ()
        [SlideType.financials, SlideType.title]).map (·.slide_type)
        = ["financials", "title"]) := by
  have h := generate_pitch_deck_content_order oracleAllOk "2024-01-01T00:00:00" ()
    [SlideType.financials, SlideType.title] (by simp)
  exact ⟨by simp, h.1.1, by rw [h.1.2]; rfl⟩

/-- C1 counterexample: a requested list of length 0 yields 10 records (the
default sequence), not the empty result the claim requires. -/
theorem generate_pitch_deck_content_empty_counterexample :
    (generate_pitch_deck_content oracleAllOk "2024-01-01T00:00:00" () []).length = 10 ∧
    generate_pitch_deck_content oracleAllOk "2024-01-01T00:00:00" () [] ≠ [] := by
  refine ⟨rfl, fun hc => ?_⟩
  have h10 : (generate_pitch_deck_content oracleAllOk "2024-01-01T00:00:00" () []).length = 10 := rfl
  rw [hc] at h10
  simp at h10

/-- C2: the orchestrator output has one entry per requested type, in order,
and the entry at each position is fully determined by that position's own
job: the produced record when the job succeeds, the slide-type fallback
record when it raises. -/
theorem generate_pitch_deck_content_positional {α : Type}
    (oracle : α → SlideType → Except String JVal) (now : String) (startup : α)
    (types : List SlideType) (i : ℕ) (h : i < types.length) :
    (generate_pitch_deck_content oracle now startup types).length = types.length ∧
    (generate_pitch_deck_content oracle now startup types)[i]? =
      types[i]?.map (fun st =>
        match generate_slide_content oracle now startup st with
        | .ok r => r
        | .error _ => create_fallback_content st startup now) := by
  have hne : types.isEmpty = false := by
    cases types with
    | nil => simp at h
    | cons a as => rfl
  constructor
  · simp [generate_pitch_deck_content, hne]
  · simp [generate_pitch_deck_content, hne]

/-- C2 witness: in a batch of three slide types where only the second job
fails, the output has three entries in order and the second is the fallback
record marked model_used = "fallback". -/
theorem generate_pitch_deck_content_positional_witness :
    ((1:ℕ) < 3) ∧
    ((generate_pitch_deck_content oracleFailsProblem "2024-01-01T00:00:00" ()
        [SlideType.title, SlideType.problem, SlideType.solution]).length = 3 ∧
      (generate_pitch_deck_content oracleFailsProblem "2024-01-01T00:00:00" ()
        [SlideType.title, SlideType.problem, SlideType.solution])[1]? =
        some (create_fallback_content SlideType.problem () "2024-01-01T00:00:00") ∧
      ((generate_pitch_deck_content oracleFailsProblem "2024-01-01T00:00:00" ()
        [SlideType.title, SlideType.problem, SlideType.solution])[1]?.map
          (·.model_used)) = some "fallback") := by
  have h := generate_pitch_deck_content_positional oracleFailsProblem
    "2024-01-01T00:00:00" () [SlideType.title, SlideType.problem, SlideType.solution]
    1 (by decide)
  refine ⟨by decide, h.1, ?_, ?_⟩
  · rw [h.2]; rfl
  · rw [h.2]; rfl

/-- C5 (amended): fallback content depends only on the slide type and the
invocation time: the startup profile never affects it, every field except
generated_at is a pure function of the slide type alone, and two
invocations produce byte-identical records exactly when their timestamps
coincide. -/
theorem create_fallback_content_determinism {α β : Type} (st : SlideType)
    (a : α) (b : β) (t1 t2 : String) :
    (create_fallback_content st a t1).slide_type
        = (create_fallback_content st b t2).slide_type ∧
    (create_fallback_content st a t1).content
        = (create_fallback_content st b t2).content ∧
    (create_fallback_content st a t1).model_used
        = (create_fallback_content st b t2).model_used ∧
    create_fallback_content st a t1 = create_fallback_content st b t1 ∧
    (create_fallback_content st a t1 = create_fallback_content st b t2 ↔ t1 = t2) := by
  refine ⟨rfl, rfl, rfl, rfl, ?_, ?_⟩
  · intro h
    exact congrArg SlideRec.generated_at h
  · intro h
    subst h
    rfl

/-- C5 counterexample: two invocations at different times produce records
that differ (in the generated_at field), so fallback content is not a pure
function of the slide type alone. -/
theorem create_fallback_content_time_counterexample :
    create_fallback_content SlideType.title () "2024-01-01T00:00:00"
      ≠ create_fallback_content SlideType.title () "2024-01-01T00:00:01" := by
  intro h
  exact absurd (congrArg SlideRec.generated_at h) (by decide)

/-- C3: create_financial_model never surfaces an exception: when the try
block completes, its model is returned; when it raises (recursion-limit
exhaustion), the single top-level except returns the documented all-zero
fallback record tagged source = "fallback_data". -/
theorem create_financial_model_catches_all (jit : ℕ → ℚ) (now : String)
    (fuel : ℕ) (d : StartupData) :
    (create_financial_model jit now fuel d =
      match create_financial_model_body jit now fuel d with
      | .ok m => m
      | .error _ => .fallback (create_fallback_financial_model now d)) ∧
    (create_fallback_financial_model now d).total_revenue_36_months = 0 ∧
    (create_fallback_financial_model now d).total_costs_36_months = 0 ∧
    (create_fallback_financial_model now d).total_net_cash_flow = 0 ∧
    FallbackModel.ltv_cac_ratio (create_fallback_financial_model now d) = 0 ∧
    (create_fallback_financial_model now d).estimated_valuation = 0 ∧
    (create_fallback_financial_model now d).profit_margin = 0 ∧
    (create_fallback_financial_model now d).source = "fallback_data" := by
  refine ⟨?_, rfl, rfl, rfl, rfl, rfl, rfl, rfl⟩
  cases fuel with
  | zero => rfl
  | succ f => rfl

/-- C9: the mutual recursion create_financial_model -> _create_scenarios ->
create_financial_model has no base case and decreases no well-founded
measure: however large the recursion budget, the computation never
completes fallback-free — the scenario chain always bottoms out in
recursion-limit fallback records. -/
theorem create_financial_model_unbounded_recursion (jit : ℕ → ℚ) (now : String)
    (fuel : ℕ) (d : StartupData) :
    fallback_free (create_financial_model jit now fuel d) = false := by
  induction fuel generalizing d with
  | zero => rfl
  | succ f ih =>
    simp [create_financial_model, fallback_free, ih]

/-- C4: the optimistic and pessimistic scenarios are full independent
recomputations of the model from the current_revenue seed scaled by 1.2
and 0.8: their revenue projections equal those of a fresh
create_financial_model run on the scaled input (at any recursion budget),
and in particular the month-1 revenue entries coincide exactly. -/
theorem create_financial_model_scenarios_recompute (jit : ℕ → ℚ) (now : String)
    (f g : ℕ) (d : StartupData) :
    ((optimistic_scenario (create_financial_model jit now (f+2) d)).bind
        revenue_projections_of
      = revenue_projections_of (create_financial_model jit now (g+1) (optimistic_data d))) ∧
    ((pessimistic_scenario (create_financial_model jit now (f+2) d)).bind
        revenue_projections_of
      = revenue_projections_of (create_financial_model jit now (g+1) (pessimistic_data d))) ∧
    (((optimistic_scenario (create_financial_model jit now (f+2) d)).bind
        revenue_projections_of).map (fun rp => rp.monthly_revenue.head?)
      = (revenue_projections_of (create_financial_model jit now (g+1) (optimistic_data d))).map
          (fun rp => rp.monthly_revenue.head?)) := by
  refine ⟨?_, ?_, ?_⟩ <;> rfl

/-- C10 (amended): in _calculate_unit_economics an absent customer_count
is treated as 1, so ARPU equals current_revenue; the guard that forces
ARPU to 0 (and the payback period to the unbounded sentinel) fires exactly
when customer_count is present with a nonpositive value — not only when it
equals 0. -/
theorem calculate_unit_economics_customer_count_default (d : StartupData) :
    (d.customer_count = none → unit_arpu d = d.current_revenue.getD 0) ∧
    (¬ 0 < d.customer_count.getD 1 ↔ ∃ k, d.customer_count = some k ∧ k ≤ 0) ∧
    (¬ 0 < d.customer_count.getD 1 →
      unit_arpu d = 0 ∧ (calculate_unit_economics d).payback_period_months = none) := by
  refine ⟨?_, ⟨?_, ?_⟩, ?_⟩
  · intro h
    rw [unit_arpu, h]
    norm_num
  · intro h
    cases hc : d.customer_count with
    | none => rw [hc] at h; simp at h
    | some k =>
      rw [hc] at h
      exact ⟨k, rfl, by simpa using h⟩
  · rintro ⟨k, hk, hle⟩
    rw [hk]
    simpa using hle
  · intro h
    have ha : unit_arpu d = 0 := by rw [unit_arpu, if_neg h]
    refine ⟨ha, ?_⟩
    simp [calculate_unit_economics, ha]

/-- C10 witness: a profile with customer_count absent and
current_revenue = 250 gets ARPU = 250, not 0. -/
theorem calculate_unit_economics_customer_count_default_witness :
    unit_arpu { name := none, current_revenue := some 250, customer_count := none,
                team_size := none, funding_stage := none } = 250 := by
  have h := (calculate_unit_economics_customer_count_default
    { name := none, current_revenue := some 250, customer_count := none,
      team_size := none, funding_stage := none }).1 rfl
  simpa using h

/-- C10 counterexample: with customer_count present and equal to -1 (not
0), the guard still fires: ARPU is forced to 0 and the payback period to
the unbounded sentinel, contradicting the claim that the guard applies
only when customer_count equals 0. -/
theorem calculate_unit_economics_guard_counterexample :
    (calculate_unit_economics negCountProfile).average_revenue_per_user = 0 ∧
    (calculate_unit_economics negCountProfile).payback_period_months = none ∧
    negCountProfile.customer_count = some (-1) ∧
    (some (-1) : Option ℤ) ≠ some 0 := by
  refine ⟨?_, ?_, rfl, by decide⟩
  · norm_num [calculate_unit_economics, unit_arpu, negCountProfile, round2, rndHalfEven]
  · norm_num [calculate_unit_economics, unit_arpu, negCountProfile]

theorem revRows_succ (g : ℚ) (jit : ℕ → ℚ) (month k : ℕ) (mr s : ℚ) :
    revRows g jit month (k+1) mr s =
      { month := month
        revenue := round2 (mr * max (4/5) (1 + g + jit month))
        growth_rate := g
        cumulative_revenue := round2 (s + mr * max (4/5) (1 + g + jit month)) }
      :: revRows g jit (month+1) k (mr * max (4/5) (1 + g + jit month))
          (s + round2 (mr * max (4/5) (1 + g + jit month))) := rfl

theorem revRows_length (g : ℚ) (jit : ℕ → ℚ) :
    ∀ (k month : ℕ) (mr s : ℚ), (revRows g jit month k mr s).length = k := by
  intro k
  induction k with
  | zero => intro month mr s; rfl
  | succ k ih => intro month mr s; simp [revRows, ih]

theorem revRows_revenue_centi (g : ℚ) (jit : ℕ → ℚ) :
    ∀ (k month : ℕ) (mr s : ℚ) (e : RevEntry),
      e ∈ revRows g jit month k mr s → IsCenti e.revenue := by
  intro k
  induction k with
  | zero => intro month mr s e he; simp [revRows] at he
  | succ k ih =>
    intro month mr s e he
    rw [revRows_succ] at he
    rcases List.mem_cons.mp he with h | h
    · subst h; exact round2_isCenti _
    · exact ih _ _ _ _ h

theorem revRows_adjacent (g : ℚ) (jit : ℕ → ℚ) :
    ∀ (k month : ℕ) (mr s : ℚ), 0 ≤ mr → ∀ (m : ℕ) (e1 e2 : RevEntry),
      (revRows g jit month k mr s)[m]? = some e1 →
      (revRows g jit month k mr s)[m+1]? = some e2 →
      4/5 * e1.revenue - 1/100 ≤ e2.revenue := by
  intro k
  induction k with
  | zero => intro month mr s _ m e1 e2 h1 _; simp [revRows] at h1
  | succ k ih =>
    intro month mr s hmr m e1 e2 h1 h2
    have hmr1 : (0:ℚ) ≤ mr * max (4/5) (1 + g + jit month) :=
      mul_nonneg hmr (le_trans (by norm_num) (le_max_left (4/5) _))
    cases m with
    | zero =>
      rw [revRows_succ, List.getElem?_cons_zero] at h1
      rw [revRows_succ, List.getElem?_cons_succ] at h2
      cases k with
      | zero => simp [revRows] at h2
      | succ k2 =>
        rw [revRows_succ, List.getElem?_cons_zero] at h2
        injection h1 with h1
        injection h2 with h2
        subst h1
        subst h2
        exact round2_growth _ _ hmr1 (le_max_left (4/5) _)
    | succ m2 =>
      rw [revRows_succ, List.getElem?_cons_succ] at h1
      rw [revRows_succ, List.getElem?_cons_succ] at h2
      exact ih (month+1) _ _ hmr1 m2 e1 e2 h1 h2

theorem costRows_length (tg : ℚ) :
    ∀ (k month : ℕ) (team : ℚ), (costRows tg month k team).length = k := by
  intro k
  induction k with
  | zero => intro month team; rfl
  | succ k ih => intro month team; simp [costRows, ih]

theorem costRows_total_centi (tg : ℚ) :
    ∀ (k month : ℕ) (team : ℚ) (e : CostEntry),
      e ∈ costRows tg month k team → IsCenti e.total_costs := by
  intro k
  induction k with
  | zero => intro month team e he; simp [costRows] at he
  | succ k ih =>
    intro month team e he
    rw [costRows] at he
    rcases List.mem_cons.mp he with h | h
    · subst h; exact round2_isCenti _
    · exact ih _ _ _ h

theorem cashLoop_length :
    ∀ (res : List RevEntry) (ces : List CostEntry) (month : ℕ) (cash : ℚ),
      ((cashLoop month cash res ces).1).length = min res.length ces.length := by
  intro res
  induction res with
  | nil => intro ces month cash; cases ces <;> simp [cashLoop]
  | cons r rs ih =>
    intro ces month cash
    cases ces with
    | nil => simp [cashLoop]
    | cons c cs => simp [cashLoop, ih, Nat.succ_min_succ]

/-- The cash-flow loop invariant: whenever starting cash and every recorded
revenue and cost value are exact cent multiples, the recorded
net_cash_flow is exactly revenue minus costs, and the recorded
cumulative_cash is exactly the starting cash plus the sum of the recorded
net cash flows so far (the per-entry rounding is the identity). -/
theorem cashLoop_spec :
    ∀ (res : List RevEntry) (ces : List CostEntry) (month : ℕ) (cash : ℚ),
      IsCenti cash →
      (∀ e ∈ res, IsCenti e.revenue) →
      (∀ e ∈ ces, IsCenti e.total_costs) →
      ∀ (m : ℕ) (e : CashEntry), ((cashLoop month cash res ces).1)[m]? = some e →
        e.net_cash_flow = e.revenue - e.costs ∧
        e.cumulative_cash
          = cash + ((((cashLoop month cash res ces).1).take (m+1)).map
              (·.net_cash_flow)).sum := by
  intro res
  induction res with
  | nil => intro ces month cash _ _ _ m e he; cases ces <;> simp [cashLoop] at he
  | cons r rs ih =>
    intro ces month cash hcash hres hces m e he
    cases ces with
    | nil => simp [cashLoop] at he
    | cons c cs =>
      have hr : IsCenti r.revenue := hres r (List.mem_cons_self r rs)
      have hc : IsCenti c.total_costs := hces c (List.mem_cons_self c cs)
      have hnet : IsCenti (r.revenue - c.total_costs) := hr.sub hc
      have hcash1 : IsCenti (cash + (r.revenue - c.total_costs)) := hcash.add hnet
      rw [cashLoop] at he
      cases m with
      | zero =>
        rw [List.getElem?_cons_zero] at he
        injection he with he
        subst he
        refine ⟨?_, ?_⟩
        · exact round2_eq_self hnet
        · rw [cashLoop]
          simp only [List.take_succ_cons, List.take_zero, List.map_cons, List.map_nil,
            List.sum_cons, List.sum_nil]
          rw [round2_eq_self hnet, round2_eq_self hcash1]
          ring
      | succ m2 =>
        rw [List.getElem?_cons_succ] at he
        have hrec := ih cs (month+1) (cash + (r.revenue - c.total_costs)) hcash1
          (fun e' he' => hres e' (List.mem_cons_of_mem r he'))
          (fun e' he' => hces e' (List.mem_cons_of_mem c he')) m2 e he
        refine ⟨hrec.1, ?_⟩
        rw [cashLoop]
        simp only [List.take_succ_cons, List.map_cons, List.sum_cons]
        rw [hrec.2, round2_eq_self hnet]
        ring

/-- C6: in every cash-flow projection produced by the engine, the recorded
cumulative cash at month m equals the 1,000,000 starting-cash seed plus the
sum of the recorded net cash flows of months 1..m (in fact exactly, hence
within the claimed 0.01 absolute tolerance), with
net_cash_flow = revenue - total_costs at every month. -/
theorem cash_flow_cumulative_consistent (current_revenue : ℚ) (customer_count : ℤ)
    (team_size : ℚ) (funding_stage : String) (jit : ℕ → ℚ) (m : ℕ) (hm : m < 36) :
    ∃ e, ((project_cash_flow (project_revenue current_revenue customer_count funding_stage jit)
            (project_costs team_size funding_stage)).monthly_cash_flow)[m]? = some e ∧
      e.net_cash_flow = e.revenue - e.costs ∧
      e.cumulative_cash = 1000000 +
        ((((project_cash_flow (project_revenue current_revenue customer_count funding_stage jit)
            (project_costs team_size funding_stage)).monthly_cash_flow).take (m+1)).map
          (·.net_cash_flow)).sum ∧
      |e.cumulative_cash - (1000000 +
        ((((project_cash_flow (project_revenue current_revenue customer_count funding_stage jit)
            (project_costs team_size funding_stage)).monthly_cash_flow).take (m+1)).map
          (·.net_cash_flow)).sum)| ≤ 1/100 := by
  have hrev : (project_revenue current_revenue customer_count funding_stage jit).monthly_revenue
      = revRows (growth_rates funding_stage) jit 1 36 current_revenue 0 := rfl
  have hcost : (project_costs team_size funding_stage).monthly_costs
      = costRows (team_growth_rates funding_stage) 1 36 team_size := rfl
  have hrows : (project_cash_flow (project_revenue current_revenue customer_count funding_stage jit)
      (project_costs team_size funding_stage)).monthly_cash_flow
      = (cashLoop 1 1000000
          (project_revenue current_revenue customer_count funding_stage jit).monthly_revenue
          (project_costs team_size funding_stage).monthly_costs).1 := rfl
  have hlen : ((cashLoop 1 1000000
      (project_revenue current_revenue customer_count funding_stage jit).monthly_revenue
      (project_costs team_size funding_stage).monthly_costs).1).length = 36 := by
    rw [cashLoop_length, hrev, hcost, revRows_length, costRows_length]
    exact Nat.min_self 36
  have hm' : m < ((cashLoop 1 1000000
      (project_revenue current_revenue customer_count funding_stage jit).monthly_revenue
      (project_costs team_size funding_stage).monthly_costs).1).length := by
    rw [hlen]; exact hm
  have he := List.getElem?_eq_getElem hm'
  have hspec := cashLoop_spec
    (project_revenue current_revenue customer_count funding_stage jit).monthly_revenue
    (project_costs team_size funding_stage).monthly_costs 1 1000000 isCenti_million
    (by rw [hrev]; exact fun e he' => revRows_revenue_centi _ jit 36 1 _ 0 e he')
    (by rw [hcost]; exact fun e he' => costRows_total_centi _ 36 1 _ e he')
    m _ he
  refine ⟨_, he, hspec.1, hspec.2, ?_⟩
  rw [hspec.2, hrows, sub_self, abs_zero]
  norm_num

/-- C6 witness: the identity instantiated at a concrete profile and month. -/
theorem cash_flow_cumulative_consistent_witness :
    (0:ℕ) < 36 ∧
    (∃ e, ((project_cash_flow (project_revenue 0 0 "seed" (fun _ => 0))
            (project_costs 0 "seed")).monthly_cash_flow)[0]? = some e ∧
      e.net_cash_flow = e.revenue - e.costs ∧
      e.cumulative_cash = 1000000 +
        ((((project_cash_flow (project_revenue 0 0 "seed" (fun _ => 0))
            (project_costs 0 "seed")).monthly_cash_flow).take 1).map
          (·.net_cash_flow)).sum ∧
      |e.cumulative_cash - (1000000 +
        ((((project_cash_flow (project_revenue 0 0 "seed" (fun _ => 0))
            (project_costs 0 "seed")).monthly_cash_flow).take 1).map
          (·.net_cash_flow)).sum)| ≤ 1/100) :=
  ⟨by norm_num, cash_flow_cumulative_consistent 0 0 0 "seed" (fun _ => 0) 0 (by norm_num)⟩

/-- C7 (amended): across the recorded monthly revenues of a projection
started from a nonnegative revenue seed, each month is at least 0.8 times
the previous month minus 0.01: the exact floor holds for the pre-rounding
running revenue, and rounding each recorded value to cents can lower the
ratio by at most a cent. -/
theorem revenue_growth_floor (current_revenue : ℚ) (customer_count : ℤ)
    (funding_stage : String) (jit : ℕ → ℚ) (m : ℕ)
    (hcr : 0 ≤ current_revenue) (hm : m + 1 < 36) :
    ∃ e1 e2,
      ((project_revenue current_revenue customer_count funding_stage jit).monthly_revenue)[m]?
        = some e1 ∧
      ((project_revenue current_revenue customer_count funding_stage jit).monthly_revenue)[m+1]?
        = some e2 ∧
      4/5 * e1.revenue - 1/100 ≤ e2.revenue := by
  have hrev : (project_revenue current_revenue customer_count funding_stage jit).monthly_revenue
      = revRows (growth_rates funding_stage) jit 1 36 current_revenue 0 := rfl
  have hlen : ((project_revenue current_revenue customer_count funding_stage jit).monthly_revenue).length = 36 := by
    rw [hrev, revRows_length]
  have hm1 : m < ((project_revenue current_revenue customer_count funding_stage jit).monthly_revenue).length := by
    rw [hlen]; exact Nat.lt_of_succ_lt hm
  have hm2 : m + 1 < ((project_revenue current_revenue customer_count funding_stage jit).monthly_revenue).length := by
    rw [hlen]; exact hm
  refine ⟨_, _, List.getElem?_eq_getElem hm1, List.getElem?_eq_getElem hm2, ?_⟩
  exact revRows_adjacent (growth_rates funding_stage) jit 36 1 current_revenue 0 hcr m _ _
    (by rw [← hrev]; exact List.getElem?_eq_getElem hm1)
    (by rw [← hrev]; exact List.getElem?_eq_getElem hm2)

/-- C7 witness: the floor with tolerance instantiated at a concrete
profile and month. -/
theorem revenue_growth_floor_witness :
    (0:ℚ) ≤ 0 ∧ 0 + 1 < 36 ∧
    (∃ e1 e2,
      ((project_revenue 0 0 "seed" (fun _ => 0)).monthly_revenue)[0]? = some e1 ∧
      ((project_revenue 0 0 "seed" (fun _ => 0)).monthly_revenue)[1]? = some e2 ∧
      4/5 * e1.revenue - 1/100 ≤ e2.revenue) :=
  ⟨le_refl 0, by norm_num,
    revenue_growth_floor 0 0 "seed" (fun _ => 0) 0 (le_refl 0) (by norm_num)⟩

/-- C7 counterexample: with revenue seed 5551/80000 = 0.0693875 and jitter
draws of -1 (so both multipliers clamp to exactly 0.8), the recorded
month-1 revenue rounds up to 0.06 and the recorded month-2 revenue rounds
down to 0.04, and 0.04 < 0.8 x 0.06 = 0.048: the growth-floor claim fails
on the recorded values as stated. -/
theorem revenue_growth_floor_counterexample :
    (((project_revenue (5551/80000) 0 "seed" (fun _ => -1)).monthly_revenue)[0]?).map
        (·.revenue) = some (3/50) ∧
    (((project_revenue (5551/80000) 0 "seed" (fun _ => -1)).monthly_revenue)[1]?).map
        (·.revenue) = some (1/25) ∧
    ¬ (4/5 * (3/50) ≤ (1/25 : ℚ)) := by
  have heq : (project_revenue (5551/80000) 0 "seed" (fun _ => -1)).monthly_revenue
      = revRows (3/20) (fun _ => -1) 1 36 (5551/80000) 0 := by
    norm_num [project_revenue, growth_rates]
  have h36 : (36:ℕ) = 35+1 := rfl
  have h35 : (35:ℕ) = 34+1 := rfl
  refine ⟨?_, ?_, by norm_num⟩
  · rw [heq, h36, revRows_succ, List.getElem?_cons_zero]
    norm_num [max_def, round2, rndHalfEven]
  · rw [heq, h36, revRows_succ, List.getElem?_cons_succ, h35, revRows_succ,
      List.getElem?_cons_zero]
    norm_num [max_def, round2, rndHalfEven]

/-- C8 (amended): the numeric fields of the TAM/SAM/SOM result are a pure
function of the TAM input (independent of the clock) with sam = tam x 0.15
and som = sam x 0.03, and the wired market-size value 1,000,000,000 yields
sam = 150,000,000 and som = 4,500,000; negative input is not rejected —
the cascade is computed unconditionally. -/
theorem calculate_tam_sam_som_cascade (mt : Option ℚ) (t1 t2 : String) :
    (calculate_tam_sam_som mt t1).sam = (calculate_tam_sam_som mt t1).tam * (15/100) ∧
    (calculate_tam_sam_som mt t1).som = (calculate_tam_sam_som mt t1).sam * (3/100) ∧
    (calculate_tam_sam_som mt t1).tam = (calculate_tam_sam_som mt t2).tam ∧
    (calculate_tam_sam_som mt t1).sam = (calculate_tam_sam_som mt t2).sam ∧
    (calculate_tam_sam_som mt t1).som = (calculate_tam_sam_som mt t2).som ∧
    (calculate_tam_sam_som (some get_market_size_total) t1).sam = 150000000 ∧
    (calculate_tam_sam_som (some get_market_size_total) t1).som = 4500000 := by
  refine ⟨rfl, rfl, rfl, rfl, rfl, ?_, ?_⟩ <;>
    norm_num [calculate_tam_sam_som, get_market_size_total]

/-- C8 counterexample: a negative TAM input is not rejected at the
boundary — the calculation produces a result record, with negative sam and
som, contradicting the claim that negative input is rejected rather than
producing a result. -/
theorem calculate_tam_sam_som_negative_result :
    (calculate_tam_sam_som (some (-1000000000)) "2024-01-01T00:00:00").tam = -1000000000 ∧
    (calculate_tam_sam_som (some (-1000000000)) "2024-01-01T00:00:00").sam = -150000000 ∧
    (calculate_tam_sam_som (some (-1000000000)) "2024-01-01T00:00:00").som = -4500000 := by
  refine ⟨?_, ?_, ?_⟩ <;> norm_num [calculate_tam_sam_som]
